import Mathlib

/-!
Verification development for the MineSweeperAI repository.

The definitions below are a shallow embedding of the claim-relevant parts of
`src/models.py` and `src/mineSweeperSolver.py`:

* screen pixels are modelled as a function from integer coordinates to RGB
  triples (the external screen-capture collaborator),
* Python `float` durations are modelled as exact rationals,
* every Python division is a potential `ZeroDivisionError`, modelled by an
  explicit `Except` error branch at exactly the divisions whose divisor can
  be zero on the relevant control path,
* external side effects (mouse movement, key presses, warnings, prints) are
  dropped; only the state they do not touch is tracked.
-/

namespace MineSweeper

/-- Point from models.py: an integer pixel-coordinate pair. -/
structure Point where
  x : ℤ
  y : ℤ
deriving DecidableEq

/-- RGB pixel colour triple as returned by `screenshot.pixel`. -/
abbrev RGB := ℕ × ℕ × ℕ

/-- FieldValue enumeration from models.py (UNDISCOVERED = -2 .. EIGHT = 8);
the numeric codes are never used by the modelled code paths, only identity. -/
inductive FieldValue where
  | undiscovered
  | flagged
  | empty
  | one
  | two
  | three
  | four
  | five
  | six
  | seven
  | eight
deriving DecidableEq

/-- Field from models.py: one board cell with its geometry and value. -/
structure Field where
  pos_to_screen : Point
  pos_to_board : Point
  id : ℤ
  value : FieldValue
deriving DecidableEq

/-- GameResult from models.py; `result` is the Python literal string
(win or loss), `time_played` the float duration as a rational. -/
structure GameResult where
  id : ℕ
  result : String
  total_moves : ℕ
  time_played : ℚ
deriving DecidableEq

/-- Python exceptions that the modelled code can raise. -/
inductive PyErr where
  | attributeError (message : String)
  | runtimeError (message : String)
  | valueError (message : String)
  | zeroDivisionError
deriving DecidableEq

/-- COLOR_MAP from MineSweeperSolver: the fixed RGB-to-value palette;
`none` models a colour absent from the Python dict. -/
def COLOR_MAP (c : RGB) : Option FieldValue :=
  if c = (255, 255, 255) then some FieldValue.undiscovered
  else if c = (0, 0, 255) then some FieldValue.one
  else if c = (0, 123, 0) then some FieldValue.two
  else if c = (255, 0, 0) then some FieldValue.three
  else if c = (0, 0, 123) then some FieldValue.four
  else if c = (128, 0, 0) then some FieldValue.five
  else if c = (19, 130, 130) then some FieldValue.six
  else if c = (0, 0, 0) then some FieldValue.seven
  else if c = (123, 123, 123) then some FieldValue.eight
  else none

/-- FIELD_BORDER_OFFSET: offset from a field centre to its upper edge pixel. -/
def FIELD_BORDER_OFFSET : ℤ := 12

/-- BLACK colour constant. -/
def BLACK : RGB := (0, 0, 0)

/-- DEAD_SMILEY_MOUTH_CORNER_POS constant. -/
def DEAD_SMILEY_MOUTH_CORNER_POS : Point := ⟨8, 25⟩

/-- COOL_SMILEY_GLASSES_CENTER_POS constant. -/
def COOL_SMILEY_GLASSES_CENTER_POS : Point := ⟨16, 11⟩

/-- check_game_status: classifies the smiley raster by two fixed pixels,
exactly as the source does (dead-smiley pixel yields the string win,
cool-smiley pixel yields loss). `pixel` is the captured smiley raster. -/
def check_game_status (pixel : ℤ → ℤ → RGB) : String :=
  if pixel DEAD_SMILEY_MOUTH_CORNER_POS.x DEAD_SMILEY_MOUTH_CORNER_POS.y = BLACK then "win"
  else if pixel COOL_SMILEY_GLASSES_CENTER_POS.x COOL_SMILEY_GLASSES_CENTER_POS.y = BLACK then "loss"
  else "ongoing"

/-- Per-field body of `_update_board`: a field whose value is not
UNDISCOVERED is not in the `undiscovered` list and is left untouched; an
UNDISCOVERED field keeps its value while its border pixel still maps to the
covered sentinel, and otherwise takes the palette value of its centre pixel
with EMPTY as the dict-lookup fallback. `pixel` is the captured board raster. -/
def classify_field (pixel : ℤ → ℤ → RGB) (f : Field) : Field :=
  if f.value = FieldValue.undiscovered then
    if COLOR_MAP (pixel f.pos_to_board.x (f.pos_to_board.y - FIELD_BORDER_OFFSET)) =
        some FieldValue.undiscovered then f
    else { f with value := (COLOR_MAP (pixel f.pos_to_board.x f.pos_to_board.y)).getD FieldValue.empty }
  else f

/-- _update_board: one classification refresh of the whole board from a fresh
raster. The source iterates over the fields whose value is UNDISCOVERED and
mutates them in place; applying `classify_field` to every field is the same
function because `classify_field` fixes every non-UNDISCOVERED field. -/
def update_board (pixel : ℤ → ℤ → RGB) (board : List (List Field)) : List (List Field) :=
  board.map (fun row => row.map (classify_field pixel))

/-- toggle_flag static method: the value update it performs on the given
field (the mouse right-click it also issues is an external effect). -/
def toggle_flag (f : Field) : Field :=
  { f with value := if f.value ≠ FieldValue.flagged then FieldValue.flagged
                    else FieldValue.undiscovered }

/-- reset_board: every field value back to UNDISCOVERED (the smiley click is
an external effect). -/
def reset_board (board : List (List Field)) : List (List Field) :=
  board.map (fun row => row.map (fun f => { f with value := FieldValue.undiscovered }))

/-- Mutable loop state of `MineSweeperSolver.start`: the instance counters
together with the loop locals. `last_game_status` starts as the empty string
in the source. `strategy_invocations` counts calls of `next_move_strategy`
(the board mutations the injected strategy performs are external to this
state). -/
structure SolverState where
  last_game_status : String
  moves_made : ℕ
  total_moves : ℕ
  games_completed : ℕ
  best_win_moves : ℕ
  strategy_invocations : ℕ
  game_history : List GameResult
deriving DecidableEq

/-- One iteration of the main while-loop of `start`, given the status string
observed by `check_game_status` this tick and the `game_duration` value the
wall clock yields on this tick (time is an external input). Mirrors the
source order: debounce-continue for a repeated terminal status; record the
status; invoke the strategy and bump both move counters; on ongoing, refresh
the board and continue; on a terminal status, increment `games_completed`,
append a GameResult via `_log_game` — whose `game_result` argument is the
hardcoded string win — then zero `moves_made`; in the win branch (the
`elif` arm, whose condition is the always-truthy literal) update
`best_win_moves` from the already-zeroed `moves_made`. -/
def tick (st : SolverState) (status : String) (game_duration : ℚ) : SolverState :=
  if status = st.last_game_status ∧ status ≠ "ongoing" then st
  else
    let st1 : SolverState :=
      { st with
        last_game_status := status,
        strategy_invocations := st.strategy_invocations + 1,
        moves_made := st.moves_made + 1,
        total_moves := st.total_moves + 1 }
    if status = "ongoing" then st1
    else
      let st2 : SolverState :=
        { st1 with
          games_completed := st1.games_completed + 1,
          game_history := st1.game_history ++
            [{ id := st1.games_completed + 1, result := "win",
               total_moves := st1.moves_made, time_played := game_duration }],
          moves_made := 0 }
      if status = "loss" then st2
      else { st2 with best_win_moves := min st2.moves_made st2.best_win_moves }

/-- Attribute dictionary written by the first two statements of `__init__`:
only `origin_field_pos` and `smiley_pos` have been assigned when line 94
executes. -/
def init_attrs (origin_field_pos smiley_pos : Option Point) : List (String × Option Point) :=
  [("origin_field_pos", origin_field_pos), ("smiley_pos", smiley_pos)]

/-- Python attribute lookup on that dictionary: a missing name raises
AttributeError naming the attribute. -/
def pyGetattr (attrs : List (String × Option Point)) (name : String) :
    Except PyErr (Option Point) :=
  match attrs.find? (fun entry => entry.fst == name) with
  | some entry => Except.ok entry.snd
  | none => Except.error (PyErr.attributeError name)

/-- `MineSweeperSolver.__init__` up to its only possible outcomes. The locate
results for the two anchor templates are inputs (the external `locate`
capability); a located Point is always truthy in Python, so `not p` is
exactly `isNone`. Line 94 reads `self.origin_pos`, a name that was never
assigned (the assigned attribute is `origin_field_pos`). The remaining
parameters (difficulty, custom, play_games) only influence code past line
94 and are omitted; no attribute state escapes a failed construction, so the
success payload is Unit. -/
def minesweeper_init (first_field happy_smiley : Option Point) (stop_after_win : Bool) :
    Except PyErr Unit := do
  let origin_pos ← pyGetattr (init_attrs first_field happy_smiley) ("origin_pos")
  let smiley_pos ← pyGetattr (init_attrs first_field happy_smiley) ("smiley_pos")
  if origin_pos.isNone || smiley_pos.isNone then
    Except.error (PyErr.runtimeError ("Failed to detect Minesweeper game window"))
  else
    Except.ok ()

/-- Prologue of `MineSweeperSolver.start`, before the first loop iteration:
the user_enters_username / stop_after_win validation, then the smiley
re-location (its result is an input from the external locate capability).
The warnings it may emit are external effects. -/
def start_prologue (stop_after_win user_enters_username : Bool) (happy_smiley : Option Point) :
    Except PyErr Point :=
  if user_enters_username && !stop_after_win then
    Except.error (PyErr.attributeError
      ("user_enters_username = True only works if stop_after_win = True"))
  else
    match happy_smiley with
    | none => Except.error (PyErr.valueError ("Smiley not found"))
    | some p => Except.ok p

/-- Number of loop iterations of `calculate_consistency`: Python
`range(len(result) - k + 1)` over ints is empty whenever the bound is
non-positive, which `Int.toNat` captures. -/
def consistency_num_windows (n k : ℕ) : ℕ :=
  ((n : ℤ) - (k : ℤ) + 1).toNat

/-- The `rates` list of `calculate_consistency`: the mean of each
length-`k` slice `result[i:i+k]`. -/
def consistency_rates (result : List ℚ) (k : ℕ) : List ℚ :=
  (List.range (consistency_num_windows result.length k)).map
    (fun i => ((result.drop i).take k).sum / (k : ℚ))

/-- calculate_consistency from the source. Two divisions can raise
ZeroDivisionError in Python: `sum(window)/k` inside the loop faults exactly
when k == 0 and at least one window exists (the first guard), and
`sum(rates)/len(rates)` faults exactly when no window exists (the second
guard); the remaining division duplicates an already-nonzero divisor. -/
def calculate_consistency (result : List ℚ) (k : ℕ) : Except PyErr ℚ :=
  if k = 0 ∧ 0 < consistency_num_windows result.length k then
    Except.error PyErr.zeroDivisionError
  else if (consistency_rates result k).length = 0 then
    Except.error PyErr.zeroDivisionError
  else
    Except.ok
      (((consistency_rates result k).map
          (fun r => r - (consistency_rates result k).sum /
            ((consistency_rates result k).length : ℚ))).sum /
        ((consistency_rates result k).length : ℚ))

/-- The `wins` count of create_stats. -/
def winsOf (game_history : List GameResult) : ℕ :=
  (game_history.filter (fun g => g.result == "win")).length

/-- The win/loss encoding create_stats feeds to calculate_consistency:
1 for a win, -1 otherwise. -/
def outcomesOf (game_history : List GameResult) : List ℚ :=
  game_history.map (fun g => if g.result == "win" then 1 else -1)

/-- The nested stats dictionary returned by create_stats, flattened into one
record (nesting carries no behaviour). -/
structure Stats where
  games_played : ℕ
  wins : ℕ
  losses : ℤ
  win_rate : ℚ
  longest_win_streak : ℕ
  longest_loss_streak : ℕ
  total_moves : ℕ
  total_moves_wins : ℕ
  avg_moves_win : ℚ
  total_moves_losses : ℤ
  avg_moves_loss : ℚ
  least_moves_played_win : ℕ
  fastest_win_time : Option ℚ
  total_time : ℚ
  avg_time_per_game : ℚ
  fastest_game : Option ℚ
  slowest_game : Option ℚ
  consistency : ℚ
  window_size : ℕ
deriving DecidableEq

/-- create_stats from the source, over the instance state it reads
(`game_history`, `best_win_moves`) and its two parameters. Python evaluation
order gives exactly two possible ZeroDivisionError sites, in this order: the
`calculate_consistency` call (line 490) — made WITHOUT the k argument, so the
default k = 5 applies and the resolved `window_size` is not passed — and the
unguarded `wins / games_completed` inside the dict literal (line 495),
modelled by the explicit zero test. All other divisions are guarded in the
source with `if ... else 0` exactly as reproduced here. `max(gen, default=0)`
over streak lengths is `foldr max 0`; `min`/`max` over a generator with
`default=None` is `List.min?`/`List.max?`. -/
def create_stats (game_history : List GameResult) (best_win_moves : ℕ)
    (games_completed : ℕ) (window_size : Option ℕ) : Except PyErr Stats :=
  let wins := winsOf game_history
  let total_moves := (game_history.map (fun g => g.total_moves)).sum
  let total_win_moves :=
    ((game_history.filter (fun g => g.result == "win")).map (fun g => g.total_moves)).sum
  let losses : ℤ := (games_completed : ℤ) - (wins : ℤ)
  let total_loss_moves : ℤ := (total_moves : ℤ) - (total_win_moves : ℤ)
  let streaks := (game_history.map (fun g => g.result)).splitBy (fun a b => a == b)
  let max_win_streak :=
    ((streaks.filter (fun run => run.head? == some "win")).map (fun run => run.length)).foldr max 0
  let max_loss_streak :=
    ((streaks.filter (fun run => run.head? == some "loss")).map (fun run => run.length)).foldr max 0
  let total_time := (game_history.map (fun g => g.time_played)).sum
  let avg_time : ℚ := if 0 < games_completed then total_time / (games_completed : ℚ) else 0
  let fastest_game := (game_history.map (fun g => g.time_played)).min?
  let slowest_game := (game_history.map (fun g => g.time_played)).max?
  let fastest_win_time :=
    ((game_history.filter (fun g => g.result == "win")).map (fun g => g.time_played)).min?
  let ws := match window_size with
    | none => max (games_completed / 30) 3
    | some w => if w = 0 then max (games_completed / 30) 3 else w
  match calculate_consistency (outcomesOf game_history) 5 with
  | Except.error e => Except.error e
  | Except.ok consistency =>
    if games_completed = 0 then Except.error PyErr.zeroDivisionError
    else
      Except.ok
        { games_played := games_completed
          wins := wins
          losses := losses
          win_rate := (wins : ℚ) / (games_completed : ℚ)
          longest_win_streak := max_win_streak
          longest_loss_streak := max_loss_streak
          total_moves := total_moves
          total_moves_wins := total_win_moves
          avg_moves_win := if wins = 0 then 0 else (total_win_moves : ℚ) / (wins : ℚ)
          total_moves_losses := total_loss_moves
          avg_moves_loss := if losses = 0 then 0 else (total_loss_moves : ℚ) / (losses : ℚ)
          least_moves_played_win := best_win_moves
          fastest_win_time := fastest_win_time
          total_time := total_time
          avg_time_per_game := avg_time
          fastest_game := fastest_game
          slowest_game := slowest_game
          consistency := consistency
          window_size := ws }

/-! ## Helper lemmas shared by the claim theorems -/

/-- Number of window rates produced by `calculate_consistency`. -/
theorem rates_length (l : List ℚ) (k : ℕ) :
    (consistency_rates l k).length = consistency_num_windows l.length k := by
  simp [consistency_rates]

/-- Subtracting a constant from every list entry subtracts length-many
copies of it from the sum. -/
theorem sum_map_sub_const (xs : List ℚ) (c : ℚ) :
    (xs.map (fun r => r - c)).sum = xs.sum - (xs.length : ℚ) * c := by
  induction xs with
  | nil => simp
  | cons a t ih =>
    simp only [List.map_cons, List.sum_cons, ih, List.length_cons]
    push_cast
    ring

/-- The signed deviations of a nonempty list from its own mean sum to zero. -/
theorem sum_dev_zero (xs : List ℚ) (h : xs.length ≠ 0) :
    (xs.map (fun r => r - xs.sum / (xs.length : ℚ))).sum = 0 := by
  have hl : (xs.length : ℚ) ≠ 0 := Nat.cast_ne_zero.mpr h
  rw [sum_map_sub_const]
  field_simp

/-- Whenever at least one window exists, `calculate_consistency` returns
exactly 0: the averaged signed deviations of the window means from their own
mean cancel identically. -/
theorem calculate_consistency_eq_zero (l : List ℚ) (k : ℕ) (hk : 1 ≤ k)
    (hkl : k ≤ l.length) : calculate_consistency l k = Except.ok 0 := by
  have hw : 0 < consistency_num_windows l.length k := by
    unfold consistency_num_windows; omega
  have hr : (consistency_rates l k).length ≠ 0 := by rw [rates_length]; omega
  unfold calculate_consistency
  rw [if_neg (by rintro ⟨h0, -⟩; omega), if_neg hr, sum_dev_zero _ hr, zero_div]

/-- Whenever the history is shorter than the window, no window exists and
`calculate_consistency` divides by the length of the empty rates list. -/
theorem calculate_consistency_short (l : List ℚ) (k : ℕ) (hk : 1 ≤ k)
    (h : l.length < k) :
    calculate_consistency l k = Except.error PyErr.zeroDivisionError := by
  have hw : consistency_num_windows l.length k = 0 := by
    unfold consistency_num_windows; omega
  have hr : (consistency_rates l k).length = 0 := by rw [rates_length, hw]
  unfold calculate_consistency
  rw [if_neg (by rintro ⟨h0, -⟩; omega), if_pos hr]

/-! ## Claim theorems -/

/-- C1: on a tick making a new terminal LOSS observation, the GameResult the
loop appends has `result = "win"` — `_log_game` is called with the hardcoded
argument `game_result='win'` for every terminal status. The id
(`games_completed + 1`) and recorded move count (the per-game counter, which
this tick also incremented) do match the claim; the outcome does not. -/
theorem C1_terminal_tick_always_logs_win (st : SolverState) (d : ℚ)
    (h : st.last_game_status ≠ "loss") :
    (tick st ("loss") d).game_history =
      st.game_history ++ [⟨st.games_completed + 1, "win", st.moves_made + 1, d⟩] := by
  have hne : ¬(("loss" : String) = st.last_game_status) := fun h1 => h h1.symm
  simp [tick, hne]

/-- C1 witness: a loss observed after an ongoing tick with five moves made is
recorded as game 1, result win, six moves. -/
theorem C1_terminal_tick_always_logs_win_witness :
    (("ongoing" : String) ≠ "loss") ∧
    (tick ⟨"ongoing", 5, 5, 0, 82, 0, []⟩ ("loss") 2).game_history =
      [⟨1, "win", 6, 2⟩] :=
  ⟨by decide, C1_terminal_tick_always_logs_win ⟨"ongoing", 5, 5, 0, 82, 0, []⟩ 2 (by decide)⟩

/-- C2: construction never completes, whether or not the anchors are
located — line 94 reads `self.origin_pos`, a name that is never assigned
(the anchor was stored as `origin_field_pos`), so `__init__` raises
AttributeError before the located-anchor check, contradicting the claim that
construction succeeds when both anchors are located and contradicting its own
docstring, which promises a RuntimeError only on detection failure. -/
theorem C2_init_always_raises_attribute_error (first_field happy_smiley : Option Point)
    (stop_after_win : Bool) :
    minesweeper_init first_field happy_smiley stop_after_win =
      Except.error (PyErr.attributeError ("origin_pos")) := rfl

/-- C3: on a tick making a new WIN observation, `best_win_moves` becomes 0
regardless of how many moves the finished game took: the source zeroes
`self.moves_made` before computing `min(self.moves_made,
self.best_win_moves)`, so the recorded best is `min 0 best = 0`, not the
claimed `min(current_best, moves_made)`. -/
theorem C3_best_win_moves_zeroed (st : SolverState) (d : ℚ)
    (h : st.last_game_status ≠ "win") :
    (tick st ("win") d).best_win_moves = 0 := by
  have hne : ¬(("win" : String) = st.last_game_status) := fun h1 => h h1.symm
  simp [tick, hne]

/-- C3 witness: a game won after six strategy calls with previous best 82
sets the best-win-moves record to 0, where the claim demands min 82 6 = 6. -/
theorem C3_best_win_moves_zeroed_witness :
    (("ongoing" : String) ≠ "win") ∧
    (tick ⟨"ongoing", 5, 5, 0, 82, 0, []⟩ ("win") 0).best_win_moves = 0 :=
  ⟨by decide, C3_best_win_moves_zeroed ⟨"ongoing", 5, 5, 0, 82, 0, []⟩ 0 (by decide)⟩

/-- C4 counterexample: with an empty history and zero games played,
create_stats raises ZeroDivisionError instead of returning a guarded value,
so the claim that the `games_played == 0` case never produces a division
fault is false. -/
theorem C4_win_rate_division_fault :
    create_stats [] 82 0 none = Except.error PyErr.zeroDivisionError := rfl

/-- C4 amended: when `games_played > 0` and the history holds at least 5
games (so the unconditionally-executed consistency step, see C6, does not
fault first), create_stats succeeds and reports
`win_rate = wins / games_played`; with `games_played == 0` it raises
ZeroDivisionError (counterexample above). -/
theorem C4_win_rate_formula_when_positive (h : List GameResult) (best gc : ℕ)
    (ws : Option ℕ) (hgc : 0 < gc) (hlen : 5 ≤ h.length) :
    ∃ s, create_stats h best gc ws = Except.ok s ∧
      s.win_rate = (winsOf h : ℚ) / (gc : ℚ) := by
  have hlo : 5 ≤ (outcomesOf h).length := by simpa [outcomesOf] using hlen
  have hc := calculate_consistency_eq_zero (outcomesOf h) 5 (by omega) hlo
  simp only [create_stats, hc, hgc.ne', ite_false, if_neg]
  exact ⟨_, rfl, rfl⟩

/-- C4 witness: five games with two wins give win_rate = wins / 5. -/
theorem C4_win_rate_formula_witness :
    0 < 5 ∧
    5 ≤ ([⟨1, "win", 3, 1⟩, ⟨2, "loss", 4, 1⟩, ⟨3, "win", 5, 1⟩, ⟨4, "win", 6, 1⟩,
          ⟨5, "loss", 7, 1⟩] : List GameResult).length ∧
    ∃ s, create_stats [⟨1, "win", 3, 1⟩, ⟨2, "loss", 4, 1⟩, ⟨3, "win", 5, 1⟩,
        ⟨4, "win", 6, 1⟩, ⟨5, "loss", 7, 1⟩] 82 5 none = Except.ok s ∧
      s.win_rate = (winsOf [⟨1, "win", 3, 1⟩, ⟨2, "loss", 4, 1⟩, ⟨3, "win", 5, 1⟩,
        ⟨4, "win", 6, 1⟩, ⟨5, "loss", 7, 1⟩] : ℚ) / ((5 : ℕ) : ℚ) :=
  ⟨by decide, by decide,
    C4_win_rate_formula_when_positive
      [⟨1, "win", 3, 1⟩, ⟨2, "loss", 4, 1⟩, ⟨3, "win", 5, 1⟩, ⟨4, "win", 6, 1⟩,
       ⟨5, "loss", 7, 1⟩] 82 5 none (by decide) (by decide)⟩

/-- C5 counterexample: a single-game history with the default window k = 5
makes calculate_consistency raise ZeroDivisionError, so the claim that the
short-history case returns a guarded value and never faults is false. -/
theorem C5_short_history_division_fault :
    calculate_consistency ([(1 : ℚ)]) 5 = Except.error PyErr.zeroDivisionError := rfl

/-- C5 amended: whenever the outcome history is shorter than the window k,
calculate_consistency raises an unguarded ZeroDivisionError — the rates list
is empty and `sum(rates)/len(rates)` divides by zero; no guarded value
exists. -/
theorem C5_short_history_raises (result : List ℚ) (k : ℕ) (hk : 1 ≤ k)
    (h : result.length < k) :
    calculate_consistency result k = Except.error PyErr.zeroDivisionError :=
  calculate_consistency_short result k hk h

/-- C5 witness: two games against a window of three fault. -/
theorem C5_short_history_raises_witness :
    1 ≤ 3 ∧ ([(1 : ℚ), -1]).length < 3 ∧
    calculate_consistency ([(1 : ℚ), -1]) 3 = Except.error PyErr.zeroDivisionError :=
  ⟨by decide, by decide, C5_short_history_raises [(1 : ℚ), -1] 3 (by decide) (by decide)⟩

/-- C6: create_stats resolves `window_size` (and reports it) but never
passes it to calculate_consistency, which therefore always runs with the
Python default k = 5. On a four-game history with caller-configured
window_size = 3 the whole stats computation raises ZeroDivisionError, while
the configured window k = 3 would have produced the defined value 0 — so the
consistency score is not computed with the configured (or derived) k, and
the reported window_size is not the k actually used. -/
theorem C6_window_size_ignored :
    create_stats [⟨1, "win", 5, 1⟩, ⟨2, "loss", 6, 1⟩, ⟨3, "win", 7, 1⟩, ⟨4, "loss", 8, 1⟩]
        82 4 (some 3) = Except.error PyErr.zeroDivisionError ∧
    calculate_consistency
        (outcomesOf [⟨1, "win", 5, 1⟩, ⟨2, "loss", 6, 1⟩, ⟨3, "win", 7, 1⟩, ⟨4, "loss", 8, 1⟩])
        3 = Except.ok 0 :=
  ⟨rfl, calculate_consistency_eq_zero _ 3 (by decide) (by decide)⟩

/-- C7 counterexample: on a tick whose observed status is the terminal WIN
(previous status ongoing, so not debounced), the strategy is invoked — its
invocation counter rises from 0 to 1 — falsifying the claim that the
strategy is never invoked on a terminal tick. -/
theorem C7_strategy_invoked_on_terminal_tick :
    (tick ⟨"ongoing", 0, 0, 0, 82, 0, []⟩ ("win") 0).strategy_invocations = 1 ∧
    (("win" : String) ≠ "ongoing") :=
  ⟨rfl, by decide⟩

/-- C7 amended: the strategy is invoked exactly once, and the total move
counter incremented exactly once, on every tick that is not a debounced
duplicate terminal observation — including ticks whose new observation is
terminal; only a repeated terminal status skips the invocation. -/
theorem C7_strategy_invocation_count (st : SolverState) (status : String) (d : ℚ) :
    (tick st status d).strategy_invocations =
        st.strategy_invocations +
          (if status = st.last_game_status ∧ status ≠ "ongoing" then 0 else 1) ∧
      (tick st status d).total_moves =
        st.total_moves +
          (if status = st.last_game_status ∧ status ≠ "ongoing" then 0 else 1) := by
  simp only [tick]
  split_ifs with h1 h2 h3 <;> simp

/-- C8 counterexample: the strategy action toggle_flag overwrites a cell
whose value has already left UNDISCOVERED — a revealed ONE cell becomes
FLAGGED — falsifying the claim for sequences that include strategy
actions. -/
theorem C8_toggle_flag_overwrites_revealed :
    FieldValue.one ≠ FieldValue.undiscovered ∧
    (toggle_flag ⟨⟨0, 0⟩, ⟨16, 16⟩, 0, FieldValue.one⟩).value = FieldValue.flagged ∧
    FieldValue.flagged ≠ FieldValue.one := by decide

/-- C8 amended: classification refreshes do preserve the invariant — a board
update leaves every cell whose value is not UNDISCOVERED exactly as it was
(positionally, via Forall₂) — but strategy actions are excluded: toggle_flag
can overwrite any cell value (counterexample above). -/
theorem C8_classifier_preserves_revealed (pixel : ℤ → ℤ → RGB) (b : List (List Field)) :
    List.Forall₂ (List.Forall₂ (fun f g => f.value ≠ FieldValue.undiscovered → g = f))
      b (update_board pixel b) := by
  unfold update_board
  rw [List.forall₂_map_right_iff, List.forall₂_same]
  intro row _hrow
  rw [List.forall₂_map_right_iff, List.forall₂_same]
  intro f _hf hval
  simp [classify_field, hval]

/-- C9 counterexample: the configuration conflict is not validated at
construction — `user_enters_username` is not a constructor parameter, and
construction with `stop_after_win = False` raises only the unrelated
`origin_pos` AttributeError — while the conflict error is raised by the
prologue of `start`. -/
theorem C9_conflict_error_raised_in_start :
    minesweeper_init (some ⟨0, 0⟩) (some ⟨0, 0⟩) false =
      Except.error (PyErr.attributeError ("origin_pos")) ∧
    start_prologue false true (some ⟨0, 0⟩) =
      Except.error (PyErr.attributeError
        ("user_enters_username = True only works if stop_after_win = True")) ∧
    PyErr.attributeError ("origin_pos") ≠
      PyErr.attributeError
        ("user_enters_username = True only works if stop_after_win = True") :=
  ⟨rfl, rfl, by decide⟩

/-- C9 amended: requesting the post-win confirmation pause while
stop_after_win is disabled raises the fatal AttributeError at the top of the
`start` method, before the smiley re-location and before any game-loop tick —
not at construction of the solver. -/
theorem C9_conflict_raises_at_start (happy_smiley : Option Point) :
    start_prologue false true happy_smiley =
      Except.error (PyErr.attributeError
        ("user_enters_username = True only works if stop_after_win = True")) := rfl

/-- C10: for every outcome list of length at least k (k ≥ 1),
calculate_consistency returns exactly 0 in exact rational arithmetic: the
sum of signed deviations of the window means from their own mean is
identically zero, so the score is independent of the input sequence. -/
theorem C10_consistency_always_zero (result : List ℚ) (k : ℕ) (hk : 1 ≤ k)
    (hkl : k ≤ result.length) : calculate_consistency result k = Except.ok 0 :=
  calculate_consistency_eq_zero result k hk hkl

/-- C10 witness: a mixed four-outcome history with window three scores 0. -/
theorem C10_consistency_always_zero_witness :
    1 ≤ 3 ∧ 3 ≤ ([1, -1, 1, 1] : List ℚ).length ∧
    calculate_consistency ([1, -1, 1, 1] : List ℚ) 3 = Except.ok 0 :=
  ⟨by decide, by decide, C10_consistency_always_zero [1, -1, 1, 1] 3 (by decide) (by decide)⟩

end MineSweeper
